import Mathlib

/-!
Verification development for the pika_hub replication core
(src/pika_hub_binlog_sender.cc and src/pika_hub_trysync.cc).

The two source files are shallowly embedded below:
* the peer registry (`std::map<int32_t, PikaStatus>` guarded by a mutex)
  becomes an association list `Registry`;
* `BinlogSender::ThreadMain` becomes the per-iteration step function
  `threadMainStep`, with the environment (stop flag, connect/send/read
  outcomes, LRU contents, reader position) supplied by a `SenderEnv`
  oracle and side effects (logging, sleeping, LRU handle traffic)
  recorded in an `Action` trace;
* `BinlogSender::UpdateSendOffset` becomes `updateSendOffset`;
* `PikaHubTrysync::{Send, Recv, Trysync}` become `trysyncCommand`,
  `trysyncRecv` and `trysync`;
* the sweep loop of `PikaHubTrysync::ThreadMain` becomes `sweepRegistry`,
  with map iterators modelled as indices into the association list.

Places where the C++ has undefined behaviour (dereferencing the
past-the-end iterator of a `std::map`, indexing an empty `std::vector`)
are modelled with an explicit `UB` error in `Except`.
-/

namespace PikaHub

/-- Observable side effects of one loop iteration: LRU handle traffic
(`lookupHit`/`lookupMiss`/`release`), sleeps with their durations in
milliseconds, and log lines at the three severities used by the source. -/
inductive Action where
  | lookupHit
  | lookupMiss
  | release
  | sleepMs (ms : Nat)
  | logInfo
  | logWarn
  | logError
deriving DecidableEq, Repr

/-- Modelled from the spec: the opcode constants `kSetOPCode`,
`kDelOPCode`, `kExpireatOPCode` live in `src/pika_hub_common.h`, which is
not part of the provided sources; only their distinctness is observable
in the embedded code, so we pick three distinct naturals. -/
def kSetOPCode : Nat := 1

/-- Modelled from the spec: see `kSetOPCode`. -/
def kDelOPCode : Nat := 2

/-- Modelled from the spec: see `kSetOPCode`. -/
def kExpireatOPCode : Nat := 3

/-- Modelled from the spec: `kMaxRetryTimes` lives in
`src/pika_hub_common.h`, which is not part of the provided sources; the
spec says a small constant in the range 3 to 10 preserves behaviour. -/
def kMaxRetryTimes : Nat := 5

/-- One decoded binlog record (`BinlogFields` in the source). `exec_time`
is the logical timestamp compared against the LRU cache (an `int32_t` in
the source, embedded as `Int`). -/
structure BinlogFields where
  server_id : Nat
  filenum : Nat
  offset : Nat
  exec_time : Int
  op : Nat
  key : String
  value : String
deriving DecidableEq, Repr

/-- One registry entry (`PikaStatus` in the source, declared in the
missing common header; the fields are the ones the two embedded source
files read or write, with types from the spec data model, section 3).
`sender` is `true` when the entry holds a non-null `BinlogSender*`. -/
structure PikaStatus where
  ip : String
  port : Nat
  rcv_number : Nat
  rcv_offset : Nat
  send_number : Nat
  send_offset : Nat
  send_fd : Int
  sender : Bool
  should_trysync : Bool
  should_delete : Bool
deriving DecidableEq, Repr

/-- The peer registry `*pika_servers_`: `std::map<int32_t, PikaStatus>`
as an association list (keys unique in any state the program builds). -/
abbrev Registry := List (Nat × PikaStatus)

/-- `pika_servers_->find(sid)`, returning the mapped value. -/
def findEntry : Registry → Nat → Option PikaStatus
  | [], _ => none
  | e :: tl, sid => if e.1 = sid then some e.2 else findEntry tl sid

/-- Mutation of the entry at key `sid` through the iterator returned by
`find` (a no-op when the key is absent, matching the guarded writes the
source performs after checking `iter != pika_servers_->end()`). -/
def updateEntry : Registry → Nat → (PikaStatus → PikaStatus) → Registry
  | [], _, _ => []
  | e :: tl, sid, f =>
    if e.1 = sid then (e.1, f e.2) :: tl else e :: updateEntry tl sid f

theorem findEntry_updateEntry (reg : Registry) (sid : Nat)
    (f : PikaStatus → PikaStatus) :
    findEntry (updateEntry reg sid f) sid = (findEntry reg sid).map f := by
  induction reg with
  | nil => rfl
  | cons hd tl ih => by_cases h : hd.1 = sid <;> simp [findEntry, updateEntry, h, ih]

/-- The LRU key-state cache, observed through `Lookup`/`Value`: for each
key, `some t` is a hit whose `CacheEntity` carries `exec_time = t`,
`none` is a miss. -/
abbrev Lru := String → Option Int

/-- The shared `*recover_offset_` matrix: origin id → observer id →
binlog file number (each cell an atomic `uint64_t` in the source). -/
abbrev RecoverMap := Nat → Nat → Nat

/-- Lines 132-134 of pika_hub_binlog_sender.cc: bump the cell
`(origin, observer)` to `filenum` when the stored value is smaller. -/
def bumpRecover (rec : RecoverMap) (origin observer filenum : Nat) :
    RecoverMap :=
  fun a b =>
    if a = origin ∧ b = observer then
      if rec origin observer < filenum then filenum else rec origin observer
    else rec a b

/-- One serialized Redis frame, kept as its argument vector (the RESP
encoding `pink::SerializeRedisCommand` applies is an injective external
codec, out of scope per the spec, section 1). -/
abbrev Frame := List String

/-- First switch on `iter->op` (lines 152-162): the verb pushed before
the key. The C++ switch has no default case, so an unrecognised opcode
pushes nothing. -/
def opName (op : Nat) : List String :=
  if op = kSetOPCode then ["set"]
  else if op = kDelOPCode then ["del"]
  else if op = kExpireatOPCode then ["expireat"]
  else []

/-- Second switch on `iter->op` (lines 166-173): the value pushed after
the key, again with no default case. -/
def opValueArgs (op : Nat) (value : String) : List String :=
  if op = kSetOPCode then [value]
  else if op = kExpireatOPCode then [value]
  else []

/-- The argument vector built for one record: verb, then `iter->key`
(line 164, pushed unconditionally), then the value when the op takes
one. -/
def mkFrame (r : BinlogFields) : Frame :=
  opName r.op ++ [r.key] ++ opValueArgs r.op r.value

/-- Task-local state of `BinlogSender::ThreadMain` together with the
shared pieces it owns between iterations: `cli` (the downstream
connection, `none` when it must reconnect), the accumulated `str_cmd`
as a list of frames, `reset_reader`, `rollback`, the member
`error_times_`, the shared `recover_offset_` matrix, and the cumulative
`Action` trace. -/
structure SenderState where
  cli : Option Int
  frames : List Frame
  resetReader : Bool
  rollback : Nat
  errorTimes : Nat
  recover : RecoverMap
  actions : List Action

/-- LRU handle traffic and log lines emitted while processing one record
(lines 136-150): a self-echoed record touches the cache not at all, a
miss logs an error, and a hit is released exactly once whether the
record is stale or emitted. -/
def recordActions (peerId : Nat) (lru : Lru) (r : BinlogFields) :
    List Action :=
  if r.server_id = peerId then []
  else
    match lru r.key with
    | none => [.lookupMiss, .logError]
    | some _ => [.lookupHit, .release]

/-- Frames appended to `str_cmd` for one record: nothing for a
self-echoed record, an LRU miss, or a stale record; otherwise the single
frame `mkFrame r`. -/
def recordFrames (peerId : Nat) (lru : Lru) (r : BinlogFields) :
    List Frame :=
  if r.server_id = peerId then []
  else
    match lru r.key with
    | none => []
    | some cached => if r.exec_time < cached then [] else [mkFrame r]

/-- The body of the per-record loop, lines 122-177 of
pika_hub_binlog_sender.cc: skip own writes, bump `recover_offset_`,
filter through the LRU, serialize and append. -/
def processRecord (peerId : Nat) (lru : Lru) (st : SenderState)
    (r : BinlogFields) : SenderState :=
  if r.server_id = peerId then st
  else
    { st with
      recover := bumpRecover st.recover r.server_id peerId r.filenum,
      frames := st.frames ++ recordFrames peerId lru r,
      actions := st.actions ++ recordActions peerId lru r }

/-- The whole batch loop over `result` (lines 122-178). -/
def processBatch (peerId : Nat) (lru : Lru) (st : SenderState)
    (rs : List BinlogFields) : SenderState :=
  rs.foldl (processRecord peerId lru) st

/-- `BinlogSender::UpdateSendOffset` (lines 18-28): under the registry
mutex, write the reader's position into `send_number`/`send_offset`,
then advance `rollback`. When the peer is absent the source dereferences
the past-the-end iterator on line 25 — undefined behaviour, modelled as
`none`. -/
def updateSendOffset (reg : Registry) (sid : Nat)
    (readerNumber readerOffset : Nat) (rollback : Nat) :
    Option (Registry × Nat) :=
  match findEntry reg sid with
  | none => none
  | some _ =>
    let reg1 := updateEntry reg sid (fun e =>
      { e with send_number := readerNumber, send_offset := readerOffset })
    let rb :=
      if readerNumber > rollback + 1 then readerNumber - 1 else rollback
    some (reg1, rb)

/-- Undefined behaviour of the C++ surfaced by the embedding:
`mapEndDeref` is a read through a past-the-end `std::map` iterator,
`vectorIndexOOB` an out-of-range `std::vector::operator[]`. -/
inductive UB where
  | mapEndDeref
  | vectorIndexOOB
deriving DecidableEq, Repr

/-- Outcome of `reader_->ReadRecord(&result)` as the sender observes it:
`readOk` with the decoded batch, the benign sentinel
`Corruption: Exit`, or any other error status. -/
inductive ReadResult where
  | readOk (records : List BinlogFields)
  | corruptionExit
  | otherError

/-- Oracle for the external effects of one loop iteration of
`BinlogSender::ThreadMain`: the stop flag at the top of the loop, the
outcome of `manager_->AddReader`, of `cli->Connect` (and the descriptor
of the new connection), of `cli->Send`, of `reader_->ReadRecord`, the
position `reader_->GetOffset` reports inside `UpdateSendOffset`, and the
LRU cache contents during the batch. -/
structure SenderEnv where
  shouldStop : Bool
  addReaderOk : Bool
  connectOk : Bool
  connectFd : Int
  sendOk : Bool
  readResult : ReadResult
  readerNumber : Nat
  readerOffset : Nat
  lru : Lru

/-- The four ways `BinlogSender::ThreadMain` can return: the
`should_stop()` loop condition, `AddReader` returning null during a
reset (line 52), the registry entry vanishing during a reset (line 61),
and `error_times_` exceeding `kMaxRetryTimes` (line 185). -/
inductive ExitCause where
  | stopSignal
  | addReaderFail
  | registryGone
  | retryExhausted
deriving DecidableEq, Repr

/-- Result of one loop iteration: either the loop continues with new
local state and registry, or the task returns for the given cause. -/
inductive StepOutcome where
  | next (st : SenderState) (reg : Registry)
  | exit (cause : ExitCause) (st : SenderState) (reg : Registry)

/-- Lines 192-193 and 55-56: set `send_fd = -2` and clear `sender` in
the registry entry (guarded by `iter != end()`). -/
def setTermFields (reg : Registry) (sid : Nat) : Registry :=
  updateEntry reg sid (fun e => { e with send_fd := -2, sender := false })

/-- Lines 119-203: the `ReadRecord` call and the three-way dispatch on
its status, including the batch loop and `UpdateSendOffset` on success
and the retry/terminate logic on generic errors. -/
def readPhase (sid : Nat) (env : SenderEnv) (st : SenderState)
    (reg : Registry) : Except UB StepOutcome :=
  match env.readResult with
  | .readOk records =>
    match updateSendOffset reg sid env.readerNumber env.readerOffset
        (processBatch sid env.lru { st with errorTimes := 0 } records).rollback with
    | none => .error .mapEndDeref
    | some (reg1, rb) =>
      .ok (.next
        { processBatch sid env.lru { st with errorTimes := 0 } records with
          rollback := rb } reg1)
  | .corruptionExit =>
    .ok (.next { st with actions := st.actions ++ [.logInfo] } reg)
  | .otherError =>
    if st.errorTimes + 1 > kMaxRetryTimes then
      .ok (.exit .retryExhausted
        { st with
          errorTimes := st.errorTimes + 1,
          actions := st.actions ++ [.logError] }
        (setTermFields reg sid))
    else
      .ok (.next
        { st with
          errorTimes := st.errorTimes + 1,
          resetReader := true,
          actions := st.actions ++ [.logWarn, .sleepMs 500] } reg)

/-- Lines 95-117: flush a non-empty `str_cmd`. On success fall through
to the read; on failure mark `send_fd = -1`, drop the connection, sleep
1 s, schedule a reader reset and continue with the pending frames
cleared. -/
def flushPhase (sid : Nat) (env : SenderEnv) (st : SenderState)
    (reg : Registry) : Except UB StepOutcome :=
  if st.frames.isEmpty then readPhase sid env st reg
  else if env.sendOk then readPhase sid env { st with frames := [] } reg
  else
    .ok (.next
      { st with
        cli := none,
        frames := [],
        resetReader := true,
        actions := st.actions ++ [.logError, .sleepMs 1000] }
      (updateEntry reg sid (fun e => { e with send_fd := -1 })))

/-- Lines 70-93: when `cli` is null, (re)connect; both outcomes sleep
2 s and continue the loop, and a success publishes the descriptor into
`send_fd`. When `cli` is live, fall through to the flush. -/
def connectPhase (sid : Nat) (env : SenderEnv) (st : SenderState)
    (reg : Registry) : Except UB StepOutcome :=
  match st.cli with
  | some _ => flushPhase sid env st reg
  | none =>
    if env.connectOk then
      .ok (.next
        { st with
          cli := some env.connectFd,
          actions := st.actions ++ [.logInfo, .sleepMs 2000] }
        (updateEntry reg sid (fun e => { e with send_fd := env.connectFd })))
    else
      .ok (.next { st with actions := st.actions ++ [.logError, .sleepMs 2000] }
        reg)

/-- Lines 40-68: when `reset_reader` is set, rebuild the reader from
`(rollback, 0)` under the registry mutex. A null factory result marks
`send_fd = -2`, clears `sender` and returns; a vanished entry returns
with the registry untouched; on success the iteration falls through to
the connect phase. -/
def resetPhase (sid : Nat) (env : SenderEnv) (st : SenderState)
    (reg : Registry) : Except UB StepOutcome :=
  if st.resetReader then
    match findEntry reg sid with
    | some _ =>
      if env.addReaderOk then
        connectPhase sid env
          { st with resetReader := false, actions := st.actions ++ [.logInfo] }
          reg
      else
        .ok (.exit .addReaderFail
          { st with actions := st.actions ++ [.logError] }
          (setTermFields reg sid))
    | none =>
      .ok (.exit .registryGone
        { st with actions := st.actions ++ [.logError] } reg)
  else connectPhase sid env st reg

/-- One iteration of the `while (!should_stop())` loop of
`BinlogSender::ThreadMain` (lines 39-204), ending in `exit` when the
function would return (line 206). -/
def threadMainStep (sid : Nat) (env : SenderEnv) (st : SenderState)
    (reg : Registry) : Except UB StepOutcome :=
  if env.shouldStop then .ok (.exit .stopSignal st reg)
  else resetPhase sid env st reg

/-- Oracle for one `PikaHubTrysync::Trysync` call: the outcomes of
`cli->Connect`, `cli->Send` and `cli->Recv` (`none` is a failed receive,
`some argv` the reply argument vector). -/
structure TrysyncEnv where
  connectOk : Bool
  sendOk : Bool
  recvReply : Option (List String)

/-- Modelled from the spec: `slash::StringToLower` of the external slash
library (out of scope per the spec) lowercases a string; per character
this is C `tolower` in the default locale, i.e. ASCII uppercase mapped
down. -/
def toLowerChar (c : Char) : Char :=
  if 65 ≤ c.toNat ∧ c.toNat ≤ 90 then Char.ofNat (c.toNat + 32) else c

/-- Modelled from the spec: see `toLowerChar`. -/
def stringToLower (s : String) : String := ⟨s.data.map toLowerChar⟩

/-- `PikaHubTrysync::Send`, lines 14-39: the request argument vector
serialized and written to the upstream. -/
def trysyncCommand (localIp : String) (localPort : Nat) (e : PikaStatus) :
    List String :=
  ["internaltrysync", localIp, toString localPort,
   toString e.rcv_number, toString e.rcv_offset]

/-- `PikaHubTrysync::Recv`, lines 41-65: on a failed receive return
false; otherwise lowercase `argv[0]` (out-of-range on an empty reply —
undefined behaviour) and clear `should_trysync` exactly when it equals
"ok". -/
def trysyncRecv (e : PikaStatus) (recvReply : Option (List String)) :
    Except UB (PikaStatus × Bool) :=
  match recvReply with
  | none => .ok (e, false)
  | some [] => .error .vectorIndexOOB
  | some (t :: _) =>
    if stringToLower t ≠ "ok" then .ok (e, false)
    else .ok ({ e with should_trysync := false }, true)

/-- `PikaHubTrysync::Trysync`, lines 67-85: connect, then
`Send(cli, iter) && Recv(cli, iter)`; every failure leaves the entry as
it was. -/
def trysync (env : TrysyncEnv) (e : PikaStatus) : Except UB PikaStatus :=
  if env.connectOk then
    if env.sendOk then (trysyncRecv e env.recvReply).map (·.1)
    else .ok e
  else .ok e

/-- The body of the sweep in `PikaHubTrysync::ThreadMain`, lines 91-99,
with the `std::map` iterator modelled as an index `i` into the
association list. Erasing entry `i` makes `i` denote the next entry (or
the end); the source then inspects `it->second` without re-checking
`it != end()`, which is the `mapEndDeref` case. `tryF` is the effect of
`Trysync` on the inspected entry. The `fuel` argument only bounds the
recursion; `sweepRegistry` supplies enough for the loop to finish. -/
def sweepAux (tryF : PikaStatus → PikaStatus) :
    Nat → List (Nat × PikaStatus) → Nat →
    Except UB (List (Nat × PikaStatus))
  | 0, l, _ => .ok l
  | fuel + 1, l, i =>
    if h : i < l.length then
      let l1 := if (l.get ⟨i, h⟩).2.should_delete then l.eraseIdx i else l
      if h1 : i < l1.length then
        let e := l1.get ⟨i, h1⟩
        let l2 :=
          if e.2.should_trysync && !e.2.sender then
            l1.set i (e.1, tryF e.2)
          else l1
        sweepAux tryF fuel l2 (i + 1)
      else .error .mapEndDeref
    else .ok l

/-- One full sweep of the registry by `PikaHubTrysync::ThreadMain`. -/
def sweepRegistry (tryF : PikaStatus → PikaStatus)
    (l : List (Nat × PikaStatus)) : Except UB (List (Nat × PikaStatus)) :=
  sweepAux tryF (l.length + 1) l 0

/-- The LRU handle traffic and log lines of a whole batch, record by
record. -/
def batchActions (p : Nat) (lru : Lru) : List BinlogFields → List Action
  | [] => []
  | r :: rs => recordActions p lru r ++ batchActions p lru rs

/-- Occurrences of one action in a trace. -/
def countAction (a : Action) : List Action → Nat
  | [] => 0
  | b :: l => (if b = a then 1 else 0) + countAction a l

/-! Concrete fixtures used by witnesses and counterexamples. -/

/-- A quiescent registry entry. -/
def psDefault : PikaStatus :=
  { ip := "", port := 0, rcv_number := 0, rcv_offset := 0,
    send_number := 0, send_offset := 0, send_fd := -1,
    sender := false, should_trysync := false, should_delete := false }

/-- An entry whose sender task is alive on descriptor 5. -/
def psConn : PikaStatus := { psDefault with send_fd := 5, sender := true }

/-- An entry tombstoned for deletion. -/
def psTomb : PikaStatus := { psDefault with should_delete := true }

/-- An entry awaiting the trysync handshake. -/
def psTry : PikaStatus := { psDefault with should_trysync := true }

/-- `psConn` after the termination writes of lines 192-193. -/
def psTerm : PikaStatus := { psConn with send_fd := -2, sender := false }

/-- A registry holding peer 2 with a live sender. -/
def wReg : Registry := [(2, psConn)]

/-- Initial task-local state of a sender (line 29-38 of the source). -/
def st0 : SenderState :=
  { cli := none, frames := [], resetReader := false, rollback := 0,
    errorTimes := 0, recover := fun _ _ => 0, actions := [] }

/-- `st0` with a live connection and the retry budget exhausted. -/
def stRun : SenderState := { st0 with cli := some 5, errorTimes := kMaxRetryTimes }

/-- The state `threadMainStep` leaves on the retry-exhausted exit from
`stRun`. -/
def stTermRes : SenderState :=
  { stRun with errorTimes := kMaxRetryTimes + 1, actions := [Action.logError] }

/-- An LRU in which every key is cached at timestamp 3. -/
def lru3 : Lru := fun _ => some 3

/-- An LRU in which every key is cached at timestamp 10. -/
def lru10 : Lru := fun _ => some 10

/-- An LRU that misses on every key. -/
def lruNone : Lru := fun _ => none

/-- A stop-signalled iteration environment. -/
def envStop : SenderEnv :=
  { shouldStop := true, addReaderOk := true, connectOk := true,
    connectFd := 5, sendOk := true, readResult := .otherError,
    readerNumber := 0, readerOffset := 0, lru := lruNone }

/-- A running iteration whose read fails with a generic error. -/
def envErr : SenderEnv := { envStop with shouldStop := false }

/-- A running iteration whose read hits the benign exit sentinel. -/
def envCorrupt : SenderEnv := { envErr with readResult := .corruptionExit }

/-- A running iteration whose read succeeds with an empty batch and
whose reader then reports position (3, 9). -/
def envOkRead : SenderEnv :=
  { envErr with readResult := .readOk [], readerNumber := 3, readerOffset := 9 }

/-- A record from peer 1 with a SET op. -/
def rSet : BinlogFields :=
  { server_id := 1, filenum := 0, offset := 0, exec_time := 7,
    op := kSetOPCode, key := "k", value := "v" }

/-- A record from peer 1 carrying an opcode that is none of SET, DEL,
EXPIREAT. -/
def rBadOp : BinlogFields := { rSet with op := 99 }

/-- A record echoing the observer's own id (peer 2). -/
def rSelf : BinlogFields := { rSet with server_id := 2 }

/-- A record from peer 1 at file number 4. -/
def r9 : BinlogFields := { rSet with filenum := 4 }

/-- A trysync environment whose handshake succeeds with reply "OK". -/
def env7 : TrysyncEnv :=
  { connectOk := true, sendOk := true, recvReply := some ["OK"] }

/-! Helper lemmas about record and batch processing. -/

theorem processRecord_actions (p : Nat) (lru : Lru) (st : SenderState)
    (r : BinlogFields) :
    (processRecord p lru st r).actions = st.actions ++ recordActions p lru r := by
  unfold processRecord
  split
  · rename_i h
    simp [recordActions, h]
  · rfl

theorem processRecord_frames (p : Nat) (lru : Lru) (st : SenderState)
    (r : BinlogFields) :
    (processRecord p lru st r).frames = st.frames ++ recordFrames p lru r := by
  unfold processRecord
  split
  · rename_i h
    simp [recordFrames, h]
  · rfl

theorem processRecord_errorTimes (p : Nat) (lru : Lru) (st : SenderState)
    (r : BinlogFields) :
    (processRecord p lru st r).errorTimes = st.errorTimes := by
  unfold processRecord
  split <;> rfl

theorem processBatch_errorTimes (p : Nat) (lru : Lru) (rs : List BinlogFields) :
    ∀ st : SenderState, (processBatch p lru st rs).errorTimes = st.errorTimes := by
  induction rs with
  | nil => intro st; rfl
  | cons r rs ih =>
    intro st
    calc (processBatch p lru st (r :: rs)).errorTimes
        = (processBatch p lru (processRecord p lru st r) rs).errorTimes := rfl
      _ = (processRecord p lru st r).errorTimes := ih _
      _ = st.errorTimes := processRecord_errorTimes p lru st r

theorem processBatch_actions (p : Nat) (lru : Lru) (rs : List BinlogFields) :
    ∀ st : SenderState,
    (processBatch p lru st rs).actions = st.actions ++ batchActions p lru rs := by
  induction rs with
  | nil => intro st; simp [processBatch, batchActions]
  | cons r rs ih =>
    intro st
    calc (processBatch p lru st (r :: rs)).actions
        = (processBatch p lru (processRecord p lru st r) rs).actions := rfl
      _ = (processRecord p lru st r).actions ++ batchActions p lru rs := ih _
      _ = st.actions ++ (recordActions p lru r ++ batchActions p lru rs) := by
          rw [processRecord_actions, List.append_assoc]
      _ = st.actions ++ batchActions p lru (r :: rs) := rfl

theorem recordActions_shape (p : Nat) (lru : Lru) (r : BinlogFields) :
    recordActions p lru r = [] ∨
    recordActions p lru r = [.lookupMiss, .logError] ∨
    recordActions p lru r = [.lookupHit, .release] := by
  unfold recordActions
  split
  · exact Or.inl rfl
  · cases lru r.key <;> simp

theorem countAction_append (a : Action) (l1 l2 : List Action) :
    countAction a (l1 ++ l2) = countAction a l1 + countAction a l2 := by
  induction l1 with
  | nil => simp [countAction]
  | cons b l1 ih => simp [countAction, ih]; omega

theorem batchActions_balance (p : Nat) (lru : Lru) (rs : List BinlogFields) :
    countAction .release (batchActions p lru rs) =
      countAction .lookupHit (batchActions p lru rs) := by
  induction rs with
  | nil => rfl
  | cons r rs ih =>
    have hX : countAction Action.release (recordActions p lru r) =
        countAction Action.lookupHit (recordActions p lru r) := by
      rcases recordActions_shape p lru r with h | h | h <;> rw [h] <;> rfl
    calc countAction .release (batchActions p lru (r :: rs))
        = countAction .release (recordActions p lru r) +
            countAction .release (batchActions p lru rs) := countAction_append ..
      _ = countAction .lookupHit (recordActions p lru r) +
            countAction .lookupHit (batchActions p lru rs) := by rw [hX, ih]
      _ = countAction .lookupHit (batchActions p lru (r :: rs)) :=
          (countAction_append ..).symm

theorem processRecord_recover_le (p : Nat) (lru : Lru) (st : SenderState)
    (r : BinlogFields) (o q : Nat) :
    st.recover o q ≤ (processRecord p lru st r).recover o q := by
  unfold processRecord
  split
  · exact Nat.le_refl _
  · show st.recover o q ≤ bumpRecover st.recover r.server_id p r.filenum o q
    unfold bumpRecover
    split
    · rename_i hc
      obtain ⟨ho, hq⟩ := hc
      subst ho; subst hq
      split <;> omega
    · exact Nat.le_refl _

theorem processBatch_recover_le (p : Nat) (lru : Lru) (rs : List BinlogFields) :
    ∀ (st : SenderState) (o q : Nat),
    st.recover o q ≤ (processBatch p lru st rs).recover o q := by
  induction rs with
  | nil => intro st o q; exact Nat.le_refl _
  | cons r rs ih =>
    intro st o q
    exact Nat.le_trans (processRecord_recover_le p lru st r o q)
      (ih (processRecord p lru st r) o q)

/-! Inversion lemmas on the loop phases: which exits each phase can
produce, and what the registry looks like at each. -/

theorem readPhase_exit (sid : Nat) (env : SenderEnv) (st st' : SenderState)
    (reg reg' : Registry) (cause : ExitCause)
    (h : readPhase sid env st reg = .ok (.exit cause st' reg')) :
    cause = .retryExhausted ∧ reg' = setTermFields reg sid := by
  unfold readPhase at h
  split at h
  · split at h
    · exact absurd h (by simp)
    · simp only [Except.ok.injEq] at h
      exact absurd h (by simp)
  · simp only [Except.ok.injEq] at h
    exact absurd h (by simp)
  · split at h
    · simp only [Except.ok.injEq, StepOutcome.exit.injEq] at h
      exact ⟨h.1.symm, h.2.2.symm⟩
    · simp only [Except.ok.injEq] at h
      exact absurd h (by simp)

theorem flushPhase_exit (sid : Nat) (env : SenderEnv) (st st' : SenderState)
    (reg reg' : Registry) (cause : ExitCause)
    (h : flushPhase sid env st reg = .ok (.exit cause st' reg')) :
    cause = .retryExhausted ∧ reg' = setTermFields reg sid := by
  unfold flushPhase at h
  split at h
  · exact readPhase_exit _ _ _ _ _ _ _ h
  · split at h
    · exact readPhase_exit _ _ _ _ _ _ _ h
    · simp only [Except.ok.injEq] at h
      exact absurd h (by simp)

theorem connectPhase_exit (sid : Nat) (env : SenderEnv) (st st' : SenderState)
    (reg reg' : Registry) (cause : ExitCause)
    (h : connectPhase sid env st reg = .ok (.exit cause st' reg')) :
    cause = .retryExhausted ∧ reg' = setTermFields reg sid := by
  unfold connectPhase at h
  split at h
  · exact flushPhase_exit _ _ _ _ _ _ _ h
  · split at h <;>
      (simp only [Except.ok.injEq] at h; exact absurd h (by simp))

theorem resetPhase_exit (sid : Nat) (env : SenderEnv) (st st' : SenderState)
    (reg reg' : Registry) (cause : ExitCause)
    (h : resetPhase sid env st reg = .ok (.exit cause st' reg')) :
    (cause = .retryExhausted ∧ reg' = setTermFields reg sid) ∨
    (cause = .addReaderFail ∧ reg' = setTermFields reg sid ∧
      ∃ e0, findEntry reg sid = some e0) ∨
    (cause = .registryGone ∧ reg' = reg ∧ findEntry reg sid = none) := by
  unfold resetPhase at h
  split at h
  · split at h
    · rename_i e0 hfo
      split at h
      · exact Or.inl (connectPhase_exit _ _ _ _ _ _ _ h)
      · simp only [Except.ok.injEq, StepOutcome.exit.injEq] at h
        exact Or.inr (Or.inl ⟨h.1.symm, h.2.2.symm, e0, hfo⟩)
    · rename_i hfo
      simp only [Except.ok.injEq, StepOutcome.exit.injEq] at h
      exact Or.inr (Or.inr ⟨h.1.symm, h.2.2.symm, hfo⟩)
  · exact Or.inl (connectPhase_exit _ _ _ _ _ _ _ h)

theorem setTermFields_spec (reg : Registry) (sid : Nat) (e : PikaStatus)
    (he : findEntry (setTermFields reg sid) sid = some e) :
    e.send_fd = -2 ∧ e.sender = false := by
  rw [setTermFields, findEntry_updateEntry] at he
  cases hfo : findEntry reg sid with
  | none => rw [hfo] at he; cases he
  | some e1 =>
    rw [hfo] at he
    simp only [Option.map_some'] at he
    injection he with he
    rw [← he]
    exact ⟨rfl, rfl⟩

/-! The claims. -/

/-- C1: when the peer is present in the registry, `UpdateSendOffset`
writes the reader position into `send_number`/`send_offset` and the new
rollback equals `send_number - 1` when `send_number > rollback + 1` and
is unchanged otherwise; under the invariant `rollback ≤ send_number`
(which holds at every call since rollback starts at 0 and each reset
re-seats the reader at file `rollback`), the resulting rollback is at
most `send_number`. -/
theorem updateSendOffset_rollback_law (reg : Registry) (sid : Nat)
    (readerNumber readerOffset rollback : Nat) (e : PikaStatus)
    (hfind : findEntry reg sid = some e) (hinv : rollback ≤ readerNumber) :
    updateSendOffset reg sid readerNumber readerOffset rollback =
      some (updateEntry reg sid (fun x =>
              { x with send_number := readerNumber,
                       send_offset := readerOffset }),
            if readerNumber > rollback + 1 then readerNumber - 1
            else rollback) ∧
    (if readerNumber > rollback + 1 then readerNumber - 1 else rollback) ≤
      readerNumber := by
  constructor
  · unfold updateSendOffset
    rw [hfind]
  · split <;> omega

/-- Witness for C1 at a concrete registry: the reader stands at (5, 7),
rollback was 0, so the new rollback is 4 and 4 ≤ 5. -/
theorem updateSendOffset_rollback_law_witness :
    updateSendOffset [(2, psDefault)] 2 5 7 0 =
      some ([(2, { psDefault with send_number := 5, send_offset := 7 })], 4) ∧
    (4 : Nat) ≤ 5 := by
  obtain ⟨h1, h2⟩ :=
    updateSendOffset_rollback_law [(2, psDefault)] 2 5 7 0 psDefault rfl
      (by omega)
  constructor
  · rw [h1]; rfl
  · omega

/-- C8: a record whose `server_id` equals the sender's own peer id is
skipped before the RecoverOffsets update and the LRU lookup: the state
is untouched and no cache event is emitted. -/
theorem self_echo_suppression (p : Nat) (lru : Lru) (st : SenderState)
    (r : BinlogFields) (h : r.server_id = p) :
    processRecord p lru st r = st ∧ recordActions p lru r = [] := by
  unfold processRecord recordActions
  rw [if_pos h, if_pos h]
  exact ⟨rfl, rfl⟩

/-- Witness for C8: a record echoing peer 2's own id leaves the state
unchanged. -/
theorem self_echo_suppression_witness :
    processRecord 2 lru3 st0 rSelf = st0 ∧ recordActions 2 lru3 rSelf = [] :=
  self_echo_suppression 2 lru3 st0 rSelf rfl

/-- C9: processing a non-self record sets the RecoverOffsets cell
`(record.server_id, peer)` to the maximum of its old value and the
record's file number, and across any batch every cell is monotonically
non-decreasing. -/
theorem recover_offset_monotone (p : Nat) (lru : Lru) (st : SenderState)
    (r : BinlogFields) (rs : List BinlogFields) (o q : Nat)
    (h : r.server_id ≠ p) :
    (processRecord p lru st r).recover r.server_id p =
      max (st.recover r.server_id p) r.filenum ∧
    st.recover o q ≤ (processBatch p lru st rs).recover o q := by
  refine ⟨?_, processBatch_recover_le p lru rs st o q⟩
  unfold processRecord
  rw [if_neg h]
  show bumpRecover st.recover r.server_id p r.filenum r.server_id p =
    max (st.recover r.server_id p) r.filenum
  unfold bumpRecover
  rw [if_pos ⟨rfl, rfl⟩]
  split <;> omega

/-- Witness for C9: a record at file 4 lifts cell (1, 2) from 0 to
max 0 4, and cell (0, 0) does not decrease across the batch. -/
theorem recover_offset_monotone_witness :
    (processRecord 2 lru3 st0 r9).recover 1 2 = max (st0.recover 1 2) 4 ∧
    st0.recover 0 0 ≤ (processBatch 2 lru3 st0 [r9]).recover 0 0 :=
  recover_offset_monotone 2 lru3 st0 r9 [r9] 0 0 (by decide)

/-- C5: per record the cache-event trace is empty (self-echo skip, no
lookup), a miss followed by the error log (never released), or a hit
followed by exactly one release — on the stale-skip and emit paths
alike; consequently over any batch the number of releases equals the
number of successful lookups. -/
theorem lookup_release_balance (p : Nat) (lru : Lru) (st : SenderState)
    (rs : List BinlogFields) (r : BinlogFields) :
    (recordActions p lru r = [] ∨
      recordActions p lru r = [.lookupMiss, .logError] ∨
      recordActions p lru r = [.lookupHit, .release]) ∧
    (processBatch p lru st rs).actions = st.actions ++ batchActions p lru rs ∧
    countAction .release (batchActions p lru rs) =
      countAction .lookupHit (batchActions p lru rs) :=
  ⟨recordActions_shape p lru r, processBatch_actions p lru rs st,
   batchActions_balance p lru rs⟩

/-- C4: with the self-echo filter passed, a cached entry strictly newer
than the record suppresses the record; a record at least as new as the
cache proceeds to serialization; and an LRU miss skips the record with
an error log. -/
theorem lru_filter_spec (p : Nat) (lru : Lru) (st : SenderState)
    (r : BinlogFields) (c : Int) (hself : r.server_id ≠ p) :
    (lru r.key = some c → r.exec_time < c →
      (processRecord p lru st r).frames = st.frames) ∧
    (lru r.key = some c → ¬ r.exec_time < c →
      (processRecord p lru st r).frames = st.frames ++ [mkFrame r]) ∧
    (lru r.key = none →
      (processRecord p lru st r).frames = st.frames ∧
      (processRecord p lru st r).actions =
        st.actions ++ [.lookupMiss, .logError]) := by
  refine ⟨?_, ?_, ?_⟩
  · intro hhit hstale
    rw [processRecord_frames]
    simp [recordFrames, hself, hhit, hstale]
  · intro hhit hfresh
    rw [processRecord_frames]
    simp [recordFrames, hself, hhit, hfresh]
  · intro hmiss
    rw [processRecord_frames, processRecord_actions]
    simp [recordFrames, recordActions, hself, hmiss]

/-- Witness for C4: record rSet (exec_time 7) is suppressed against a
cache at 10, emitted against a cache at 3, and skipped on a miss. -/
theorem lru_filter_spec_witness :
    (processRecord 2 lru10 st0 rSet).frames = st0.frames ∧
    (processRecord 2 lru3 st0 rSet).frames = st0.frames ++ [mkFrame rSet] ∧
    (processRecord 2 lruNone st0 rSet).frames = st0.frames :=
  ⟨(lru_filter_spec 2 lru10 st0 rSet 10 (by decide)).1 rfl (by decide),
   (lru_filter_spec 2 lru3 st0 rSet 3 (by decide)).2.1 rfl (by decide),
   ((lru_filter_spec 2 lruNone st0 rSet 0 (by decide)).2.2 rfl).1⟩

/-- C3, counterexample: a record whose opcode is none of SET, DEL,
EXPIREAT and which passes the self-echo and LRU filters does NOT
produce nothing — both op switches fall through (they have no default
case), the key alone is pushed, and a one-argument frame is appended to
`str_cmd` with no log entry (the trace is just the hit and its
release). -/
theorem unknownOp_appends_frame :
    rBadOp.op ≠ kSetOPCode ∧ rBadOp.op ≠ kDelOPCode ∧
    rBadOp.op ≠ kExpireatOPCode ∧
    (processRecord 2 lru3 st0 rBadOp).frames = [["k"]] ∧
    (processRecord 2 lru3 st0 rBadOp).actions = [.lookupHit, .release] :=
  ⟨by decide, by decide, by decide, rfl, rfl⟩

/-- C3, amended: a record passing the self-echo and LRU filters appends
exactly one frame — `set key value`, `del key`, or `expireat key value`
for the three known ops, and (contrary to the claim) a frame holding
just the key, with no log entry, for any other opcode. -/
theorem serialize_op_frames (p : Nat) (lru : Lru) (st : SenderState)
    (r : BinlogFields) (c : Int) (hself : r.server_id ≠ p)
    (hhit : lru r.key = some c) (hfresh : ¬ r.exec_time < c) :
    (processRecord p lru st r).frames = st.frames ++ [mkFrame r] ∧
    (r.op = kSetOPCode → mkFrame r = ["set", r.key, r.value]) ∧
    (r.op = kDelOPCode → mkFrame r = ["del", r.key]) ∧
    (r.op = kExpireatOPCode → mkFrame r = ["expireat", r.key, r.value]) ∧
    (r.op ≠ kSetOPCode → r.op ≠ kDelOPCode → r.op ≠ kExpireatOPCode →
      mkFrame r = [r.key] ∧ recordActions p lru r = [.lookupHit, .release]) := by
  refine ⟨?_, ?_, ?_, ?_, ?_⟩
  · rw [processRecord_frames]
    simp [recordFrames, hself, hhit, hfresh]
  · intro hop
    simp [mkFrame, opName, opValueArgs, hop, kSetOPCode, kDelOPCode,
      kExpireatOPCode]
  · intro hop
    simp [mkFrame, opName, opValueArgs, hop, kSetOPCode, kDelOPCode,
      kExpireatOPCode]
  · intro hop
    simp [mkFrame, opName, opValueArgs, hop, kSetOPCode, kDelOPCode,
      kExpireatOPCode]
  · intro h1 h2 h3
    constructor
    · simp [mkFrame, opName, opValueArgs, h1, h2, h3]
    · simp [recordActions, hself, hhit]

/-- Witness for C3 (amended): the SET record rSet emits the frame
`set k v`. -/
theorem serialize_op_frames_witness :
    (processRecord 2 lru3 st0 rSet).frames = [["set", "k", "v"]] := by
  obtain ⟨h1, h2, _⟩ :=
    serialize_op_frames 2 lru3 st0 rSet 3 (by decide) rfl (by decide)
  rw [h1, h2 rfl]
  rfl

/-- C2, counterexample: the external stop signal is a termination path
on which the task returns with the registry untouched — peer 2 still
shows `send_fd = 5` and a non-null `sender`, not `send_fd = -2` and
`sender = null`. -/
theorem stopSignal_leaves_registry_unchanged :
    threadMainStep 2 envStop st0 wReg = .ok (.exit .stopSignal st0 wReg) ∧
    findEntry wReg 2 = some psConn ∧
    psConn.send_fd ≠ -2 ∧ psConn.sender ≠ false :=
  ⟨rfl, rfl, by decide, by decide⟩

/-- C2, amended: on the reader-factory-failure exit the registry entry
exists and carries `send_fd = -2`, `sender = null`; on the read-error
exhaustion exit the entry carries those values whenever it exists; the
external-stop exit leaves the registry unchanged, and on the
entry-disappeared exit there is no entry for the peer at all. -/
theorem termination_registry_fields (sid : Nat) (env : SenderEnv)
    (st st' : SenderState) (reg reg' : Registry) (cause : ExitCause)
    (h : threadMainStep sid env st reg = .ok (.exit cause st' reg')) :
    (cause = .stopSignal → reg' = reg) ∧
    (cause = .addReaderFail →
      ∃ e, findEntry reg' sid = some e ∧ e.send_fd = -2 ∧ e.sender = false) ∧
    (cause = .retryExhausted →
      ∀ e, findEntry reg' sid = some e → e.send_fd = -2 ∧ e.sender = false) ∧
    (cause = .registryGone → findEntry reg' sid = none) := by
  unfold threadMainStep at h
  split at h
  · simp only [Except.ok.injEq, StepOutcome.exit.injEq] at h
    obtain ⟨hc, _, hr⟩ := h
    subst hc; subst hr
    exact ⟨fun _ => rfl, fun hx => ExitCause.noConfusion hx,
      fun hx => ExitCause.noConfusion hx, fun hx => ExitCause.noConfusion hx⟩
  · rcases resetPhase_exit _ _ _ _ _ _ _ h with
      ⟨hc, hr⟩ | ⟨hc, hr, e0, hfo⟩ | ⟨hc, hr, hfo⟩
    · subst hc; subst hr
      refine ⟨fun hx => ExitCause.noConfusion hx, fun hx => ExitCause.noConfusion hx,
        fun _ e he => ?_, fun hx => ExitCause.noConfusion hx⟩
      rw [setTermFields, findEntry_updateEntry] at he
      cases hfo : findEntry reg sid with
      | none => rw [hfo] at he; cases he
      | some e1 =>
        rw [hfo] at he
        simp only [Option.map_some'] at he
        injection he with he
        rw [← he]
        exact ⟨rfl, rfl⟩
    · subst hc; subst hr
      refine ⟨fun hx => ExitCause.noConfusion hx, fun _ => ?_,
        fun hx => ExitCause.noConfusion hx, fun hx => ExitCause.noConfusion hx⟩
      refine ⟨{ e0 with send_fd := -2, sender := false }, ?_, rfl, rfl⟩
      rw [setTermFields, findEntry_updateEntry, hfo]
      rfl
    · subst hc; subst hr
      exact ⟨fun hx => ExitCause.noConfusion hx, fun hx => ExitCause.noConfusion hx,
        fun hx => ExitCause.noConfusion hx, fun _ => hfo⟩

/-- Witness for C2 (amended): the retry-exhausted exit from `stRun`
rewrites peer 2's entry to `send_fd = -2`, `sender = null`. -/
theorem termination_registry_fields_witness :
    psTerm.send_fd = -2 ∧ psTerm.sender = false :=
  (termination_registry_fields 2 envErr stRun stTermRes wReg
      (setTermFields wReg 2) .retryExhausted rfl).2.2.1 rfl psTerm rfl

/-- C6: a successful read clears `error_times` to zero; the sentinel
status "Corruption: Exit" only logs — `error_times` and `reset_reader`
are untouched, no sleep happens; a generic read error increments
`error_times` and, while the new count is at most `kMaxRetryTimes`,
sleeps 500 ms and schedules a reader reset; once the count exceeds
`kMaxRetryTimes` the sender writes `send_fd = -2`, clears `sender` and
terminates. -/
theorem read_error_handling (sid : Nat) (env : SenderEnv) (st : SenderState)
    (reg : Registry) :
    (∀ records e, env.readResult = .readOk records →
      findEntry reg sid = some e →
      ∃ st1 reg1, readPhase sid env st reg = .ok (.next st1 reg1) ∧
        st1.errorTimes = 0) ∧
    (env.readResult = .corruptionExit →
      readPhase sid env st reg =
        .ok (.next { st with actions := st.actions ++ [.logInfo] } reg)) ∧
    (env.readResult = .otherError → st.errorTimes + 1 ≤ kMaxRetryTimes →
      readPhase sid env st reg = .ok (.next
        { st with
          errorTimes := st.errorTimes + 1,
          resetReader := true,
          actions := st.actions ++ [.logWarn, .sleepMs 500] } reg)) ∧
    (env.readResult = .otherError → st.errorTimes + 1 > kMaxRetryTimes →
      readPhase sid env st reg = .ok (.exit .retryExhausted
        { st with
          errorTimes := st.errorTimes + 1,
          actions := st.actions ++ [.logError] }
        (setTermFields reg sid)) ∧
      ∀ e2, findEntry (setTermFields reg sid) sid = some e2 →
        e2.send_fd = -2 ∧ e2.sender = false) := by
  refine ⟨?_, ?_, ?_, ?_⟩
  · intro records e hr hfind
    simp only [readPhase, hr, updateSendOffset, hfind]
    refine ⟨_, _, rfl, ?_⟩
    simp [processBatch_errorTimes]
  · intro hr
    simp only [readPhase, hr]
  · intro hr hle
    simp only [readPhase, hr]
    rw [if_neg (by omega)]
  · intro hr hgt
    constructor
    · simp only [readPhase, hr]
      rw [if_pos hgt]
    · exact fun e2 he2 => setTermFields_spec reg sid e2 he2

/-- Witness for C6: against registry `wReg`, the sentinel only logs, a
first error schedules a reset after the 500 ms sleep, and the sixth
consecutive error terminates and tombstones the entry. -/
theorem read_error_handling_witness :
    readPhase 2 envCorrupt st0 wReg =
      .ok (.next { st0 with actions := [Action.logInfo] } wReg) ∧
    readPhase 2 envErr st0 wReg = .ok (.next
      { st0 with
        errorTimes := 1,
        resetReader := true,
        actions := [Action.logWarn, Action.sleepMs 500] } wReg) ∧
    readPhase 2 envErr stRun wReg =
      .ok (.exit .retryExhausted stTermRes (setTermFields wReg 2)) ∧
    psTerm.send_fd = -2 ∧ psTerm.sender = false :=
  ⟨(read_error_handling 2 envCorrupt st0 wReg).2.1 rfl,
   (read_error_handling 2 envErr st0 wReg).2.2.1 rfl (by decide),
   ((read_error_handling 2 envErr stRun wReg).2.2.2 rfl (by decide)).1,
   ((read_error_handling 2 envErr stRun wReg).2.2.2 rfl (by decide)).2
     psTerm rfl⟩

/-- C7: a `Trysync` call clears `should_trysync` exactly when the
connect succeeds, the `internaltrysync` send succeeds, and the first
token of the reply, lowercased, is "ok"; on connect, send or recv
failure, or any other reply token, `should_trysync` stays true, and in
every case every other field of the entry is unchanged. -/
theorem trysync_spec (env : TrysyncEnv) (e : PikaStatus)
    (hne : env.recvReply ≠ some []) (hts : e.should_trysync = true) :
    ∃ e2, trysync env e = .ok e2 ∧
      (e2.should_trysync = false ↔
        (env.connectOk = true ∧ env.sendOk = true ∧
          ∃ t rest, env.recvReply = some (t :: rest) ∧
            stringToLower t = "ok")) ∧
      e2.ip = e.ip ∧ e2.port = e.port ∧
      e2.rcv_number = e.rcv_number ∧ e2.rcv_offset = e.rcv_offset ∧
      e2.send_number = e.send_number ∧ e2.send_offset = e.send_offset ∧
      e2.send_fd = e.send_fd ∧ e2.sender = e.sender ∧
      e2.should_delete = e.should_delete := by
  cases hc : env.connectOk with
  | false =>
    refine ⟨e, ?_, ?_, rfl, rfl, rfl, rfl, rfl, rfl, rfl, rfl, rfl⟩
    · simp [trysync, hc]
    · simp [hts, hc]
  | true =>
    cases hs : env.sendOk with
    | false =>
      refine ⟨e, ?_, ?_, rfl, rfl, rfl, rfl, rfl, rfl, rfl, rfl, rfl⟩
      · simp [trysync, hc, hs]
      · simp [hts, hs]
    | true =>
      cases hr : env.recvReply with
      | none =>
        refine ⟨e, ?_, ?_, rfl, rfl, rfl, rfl, rfl, rfl, rfl, rfl, rfl⟩
        · simp [trysync, trysyncRecv, hc, hs, hr, Except.map]
        · simp [hts, hr]
      | some argv =>
        cases argv with
        | nil => exact absurd hr hne
        | cons t rest =>
          by_cases hok : stringToLower t = "ok"
          · refine ⟨{ e with should_trysync := false }, ?_, ?_,
              rfl, rfl, rfl, rfl, rfl, rfl, rfl, rfl, rfl⟩
            · simp [trysync, trysyncRecv, hc, hs, hr, hok, Except.map]
            · exact iff_of_true rfl ⟨rfl, rfl, t, rest, rfl, hok⟩
          · refine ⟨e, ?_, ?_, rfl, rfl, rfl, rfl, rfl, rfl, rfl, rfl, rfl⟩
            · simp [trysync, trysyncRecv, hc, hs, hr, hok, Except.map]
            · apply iff_of_false
              · intro hx
                rw [hts] at hx
                exact Bool.noConfusion hx
              · rintro ⟨-, -, t2, rest2, hr2, hok2⟩
                injection hr2 with hr3
                injection hr3 with hr4 hr5
                exact hok (by rw [hr4]; exact hok2)

/-- Witness for C7: a successful handshake replying "OK" clears
`should_trysync`. -/
theorem trysync_spec_witness :
    (trysync env7 psTry).map (fun x => x.should_trysync) = Except.ok false := by
  obtain ⟨e2, h1, h2, _⟩ := trysync_spec env7 psTry (by decide) rfl
  rw [h1]
  simp only [Except.map]
  exact congrArg Except.ok (h2.mpr ⟨rfl, rfl, "OK", [], rfl, by decide⟩)

/-- C10: the sweep of `PikaHubTrysync::ThreadMain` on a registry whose
single — and therefore last — entry is tombstoned: `erase` returns the
past-the-end iterator and the loop then reads `should_trysync` through
it without re-checking against `end()`, the undefined dereference the
claim says cannot happen. -/
theorem sweep_last_erase_derefs_end :
    sweepRegistry id [(1, psTomb)] = .error .mapEndDeref := rfl

end PikaHub
